import Mathlib

/- Verification of the PixiePal chat assistant core: a shallow embedding of
   src/app/index.backup.tsx and src/services/PixiePalDataService.ts, followed by
   theorems about the query-resolution pipeline. JavaScript strings are modelled
   as Lean strings with explicit code-point-list operations, JavaScript
   truthiness is modelled explicitly, and the React `setCurrentPark` side effect
   is modelled by returning the optional park-switch value. -/

namespace PixiePal

/-- JavaScript `hay.includes(needle)`: substring test on code points. -/
def jsIncludes (hay needle : String) : Bool := decide (needle.data <:+: hay.data)

/-- JavaScript `toLowerCase` on the ASCII range used by the app. -/
def jsToLower (s : String) : String := String.mk (s.data.map Char.toLower)

/-- JavaScript `trim`. -/
def jsTrim (s : String) : String :=
  String.mk (((s.data.dropWhile Char.isWhitespace).reverse.dropWhile Char.isWhitespace).reverse)

/-- JavaScript `s.substring(0, n)`. -/
def jsSubstrTo (s : String) (n : Nat) : String := String.mk (s.data.take n)

/-- JavaScript `v || d` for an optional string field: the default replaces a missing or empty (falsy) value. -/
def jsOrStr (v : Option String) (d : String) : String :=
  match v with
  | some s => if s = "" then d else s
  | none => d

/-- Truthiness of an optional string field (`undefined` and `""` are falsy). -/
def truthyStr (v : Option String) : Bool :=
  match v with
  | some s => decide (s ≠ "")
  | none => false

/-- Split a code-point list at every occurrence of `c` (JavaScript `split` with a one-character separator). -/
def splitCharsOn (c : Char) : List Char → List (List Char)
  | [] => [[]]
  | x :: xs =>
    if x = c then [] :: splitCharsOn c xs
    else
      match splitCharsOn c xs with
      | [] => [[x]]
      | p :: ps => (x :: p) :: ps

/-- JavaScript `s.split(c)` for a one-character separator. -/
def jsSplitOn (s : String) (c : Char) : List String := (splitCharsOn c s.data).map String.mk

/-- Numeric value of a list of decimal digit characters. -/
def digitsToNat (ds : List Char) : Nat :=
  ds.foldl (fun n c => n * 10 + (c.toNat - '0'.toNat)) 0

/-- JavaScript `parseInt` in base 10; `none` models `NaN`. -/
def jsParseInt (s : String) : Option Int :=
  let cs := s.data.dropWhile Char.isWhitespace
  let signAndRest : Bool × List Char :=
    match cs with
    | '-' :: r => (true, r)
    | '+' :: r => (false, r)
    | _ => (false, cs)
  let ds := signAndRest.2.takeWhile Char.isDigit
  if ds = [] then none
  else some ((if signAndRest.1 then -1 else 1) * (digitsToNat ds : Int))

/-- JavaScript `w.charAt(0).toUpperCase() + w.slice(1)`. -/
def capitalizeWord (w : String) : String :=
  match w.data with
  | [] => ""
  | ch :: rest => String.mk (ch.toUpper :: rest)

/-- JavaScript `Array.join(sep)`. -/
def joinSep (sep : String) : List String → String
  | [] => ""
  | [x] => x
  | x :: y :: xs => x ++ sep ++ joinSep sep (y :: xs)

/-- Park identifiers (`ExtendedParkId` in the source; the first four form `ParkId`). -/
inductive Park
  | magicKingdom
  | epcot
  | hollywoodStudios
  | animalKingdom
  | disneySprings
  | resorts
deriving DecidableEq

/-- Display names of the parks (`PARK_NAMES`). -/
def PARK_NAMES : Park → String
  | .magicKingdom => "Magic Kingdom"
  | .epcot => "EPCOT"
  | .hollywoodStudios => "Disney\x27s Hollywood Studios"
  | .animalKingdom => "Disney\x27s Animal Kingdom"
  | .disneySprings => "Disney Springs"
  | .resorts => "Resorts"

/-- The fixed attraction-keyword-to-park mapping (`ATTRACTION_TO_PARK`), in source (insertion) order. -/
def ATTRACTION_TO_PARK : List (String × Park) :=
  [("space mountain", .magicKingdom),
   ("pirates of the caribbean", .magicKingdom),
   ("haunted mansion", .magicKingdom),
   ("big thunder mountain", .magicKingdom),
   ("seven dwarfs mine train", .magicKingdom),
   ("tiana\x27s bayou adventure", .magicKingdom),
   ("jungle cruise", .magicKingdom),
   ("splash mountain", .magicKingdom),
   ("tron lightcycle run", .magicKingdom),
   ("guardians of the galaxy", .epcot),
   ("test track", .epcot),
   ("spaceship earth", .epcot),
   ("frozen ever after", .epcot),
   ("soarin", .epcot),
   ("mission space", .epcot),
   ("rise of the resistance", .hollywoodStudios),
   ("millennium falcon", .hollywoodStudios),
   ("tower of terror", .hollywoodStudios),
   ("rock n roller coaster", .hollywoodStudios),
   ("slinky dog dash", .hollywoodStudios),
   ("mickey and minnie\x27s runaway railway", .hollywoodStudios),
   ("avatar flight of passage", .animalKingdom),
   ("expedition everest", .animalKingdom),
   ("kilimanjaro safaris", .animalKingdom),
   ("dinosaur", .animalKingdom),
   ("navi river journey", .animalKingdom)]

/-- Convert a 24-hour time string such as "09:00" to a 12-hour string ("9:00 AM"); `formatTime` in the source. A falsy or colon-free input is returned unchanged. -/
def formatTime (militaryTime : String) : String :=
  if militaryTime = "" || !jsIncludes militaryTime ":" then militaryTime
  else
    let parts := jsSplitOn militaryTime ':'
    let minutes := (parts.drop 1).headD ""
    match jsParseInt (parts.headD "") with
    | none => "NaN:" ++ minutes ++ " PM"
    | some hour24 =>
      if hour24 = 0 then "12:" ++ minutes ++ " AM"
      else if hour24 < 12 then toString hour24 ++ ":" ++ minutes ++ " AM"
      else if hour24 = 12 then "12:" ++ minutes ++ " PM"
      else toString (hour24 - 12) ++ ":" ++ minutes ++ " PM"

/-- Reorder a `YYYY-MM-DD` date string to `MM-DD-YYYY` (`formatDate` in the source). -/
def formatDate (dateString : String) : String :=
  if dateString = "" || !jsIncludes dateString "-" then dateString
  else
    match jsSplitOn dateString '-' with
    | [year, month, day] => month ++ "-" ++ day ++ "-" ++ year
    | _ => dateString

/-- Classification record produced by `analyzeQuery`. -/
structure QueryAnalysis where
  isTimeQuery : Bool
  isSpecificLocationTime : Bool
  isCharacterQuery : Bool
  isSpecificCharacterLocation : Bool
  isEntertainmentQuery : Bool
  isFireworksQuery : Bool
  isShowQuery : Bool
  isParadeQuery : Bool
  isAttractionQuery : Bool
  isCrossParks : Bool
  targetPark : Option Park
deriving DecidableEq

/-- The keyword classifier `analyzeQuery` (lines 151-171 of index.backup.tsx). -/
def analyzeQuery (input : String) : QueryAnalysis :=
  let lower := jsToLower input
  { isTimeQuery := jsIncludes lower "time" || jsIncludes lower "hours" || jsIncludes lower "open" || jsIncludes lower "close"
    isSpecificLocationTime := jsIncludes lower "fairytale hall" || jsIncludes lower "princess fairytale hall" || jsIncludes lower "fairy hall" || jsIncludes lower "theater" || jsIncludes lower "sideshow"
    isCharacterQuery := jsIncludes lower "character" || jsIncludes lower "meet" || jsIncludes lower "mickey" ||
      (jsIncludes lower "princess" && !jsIncludes lower "fairytale" && !jsIncludes lower "fairy hall" && !jsIncludes lower "princess fairytale hall")
    isSpecificCharacterLocation := jsIncludes lower "fairytale hall" || jsIncludes lower "princess fairytale hall" || jsIncludes lower "fairy hall" || jsIncludes lower "town square theater" || jsIncludes lower "pete\x27s silly sideshow"
    isEntertainmentQuery := jsIncludes lower "show" || jsIncludes lower "parade" || jsIncludes lower "firework" || jsIncludes lower "entertainment"
    isFireworksQuery := jsIncludes lower "firework"
    isShowQuery := jsIncludes lower "show" && !jsIncludes lower "firework" && !jsIncludes lower "parade"
    isParadeQuery := jsIncludes lower "parade"
    isAttractionQuery := jsIncludes lower "ride" || jsIncludes lower "attraction" || jsIncludes lower "wait"
    isCrossParks := jsIncludes lower "flight of passage" || jsIncludes lower "rise of the resistance" || jsIncludes lower "frozen ever after"
    targetPark :=
      if jsIncludes lower "mk" || jsIncludes lower "magic kingdom" then some .magicKingdom
      else if jsIncludes lower "epcot" || jsIncludes lower "ep" then some .epcot
      else if jsIncludes lower "hollywood" || jsIncludes lower "hs" then some .hollywoodStudios
      else if jsIncludes lower "animal" || jsIncludes lower "ak" then some .animalKingdom
      else none }

/-- Cached attraction record as held by the chat screen (`interface Attraction`). -/
structure Attraction where
  id : String
  name : String
  waitTime : Int
  isOpen : Bool
  hasLightningLane : Bool
  park : Park
  land : Option String
deriving DecidableEq

/-- One park-hours schedule entry of the fetched payload. -/
structure HoursEntry where
  date : Option String
  openingTime : Option String
  closingTime : Option String
deriving DecidableEq

/-- One element of `allParkHours`; `entries` is the `hours.hours` array of the fetched payload, `none` when the field is missing. -/
structure ParkHoursRec where
  park : Park
  entries : Option (List HoursEntry)
deriving DecidableEq

/-- One entertainment show of the fetched payload. -/
structure ShowRec where
  name : String
  type : Option String
  times : Option (List String)
  location : Option String
deriving DecidableEq

/-- One element of `allEntertainment`: a park together with its show list. -/
structure EntertainmentRec where
  park : Park
  entertainment : List ShowRec
deriving DecidableEq

/-- Cached character-meet record (`interface CharacterMeet`). -/
structure CharacterMeetRec where
  characters : Option (List String)
  character : Option String
  location : String
  times : Option (List String)
  time : Option String
  park : Option Park
deriving DecidableEq

/-- Thumbs up or down. -/
inductive FeedbackType
  | positive
  | negative
deriving DecidableEq

/-- The in-memory feedback field of a message. -/
structure FeedbackRec where
  type : FeedbackType
  comment : Option String
  timestamp : Nat
deriving DecidableEq

/-- Chat message (`interface Message`); timestamps are abstracted to naturals. -/
structure Message where
  id : String
  text : String
  isUser : Bool
  timestamp : Nat
  showFeedback : Bool
  feedback : Option FeedbackRec
deriving DecidableEq

/-- One entry of the persisted feedback log (`feedbackData` in `handleFeedback`). -/
structure FeedbackEntry where
  messageId : String
  feedbackType : FeedbackType
  comment : Option String
  timestamp : Nat
  park : Park
  messageText : Option String
deriving DecidableEq

/-- The chat screen state: React `useState` variables plus the persisted feedback log. -/
structure ChatState where
  currentPark : Park
  messages : List Message
  inputText : String
  isLoading : Bool
  allAttractions : List Attraction
  allEntertainment : List EntertainmentRec
  allParkHours : List ParkHoursRec
  allCharacterMeets : List CharacterMeetRec
  conversationContext : List String
  feedbackLog : List FeedbackEntry
deriving DecidableEq

/-- The live-attraction lookup of the keyword scan: exact park plus case-insensitive substring match on the name (lines 418-421). -/
def findLiveAttraction (attractions : List Attraction) (parkId : Park) (ride : String) : Option Attraction :=
  attractions.find? (fun a => decide (a.park = parkId) && jsIncludes (jsToLower a.name) ride)

/-- Wait-time or location-only answer for a live attraction record (lines 429-434). -/
def attractionAnswer (lowerInput : String) (a : Attraction) (parkId effectivePark : Park) : String :=
  let switched := if parkId ≠ effectivePark then "(Switched parks for you!) " else ""
  let landStr := jsOrStr a.land "the park"
  if jsIncludes lowerInput "wait" || jsIncludes lowerInput "how long" || jsIncludes lowerInput "open" || !jsIncludes lowerInput "where" then
    let lightningLane := if a.hasLightningLane then " ⚡ Lightning Lane available!" else ""
    "🎢 **" ++ a.name ++ "** currently has a **" ++ toString a.waitTime ++ " minute wait**!" ++ lightningLane ++ "\n\n🏰 Located at " ++ PARK_NAMES parkId ++ " in " ++ landStr ++ "! " ++ switched ++ "✨"
  else
    "🎢 **" ++ a.name ++ "** is located at " ++ PARK_NAMES parkId ++ " in " ++ landStr ++ "! " ++ switched ++ "✨"

/-- Answer for a known attraction keyword with no live record, after switching parks (line 439). -/
def knownRideNoDataAnswer (ride : String) (parkId : Park) : String :=
  "🎢 " ++ joinSep " " ((jsSplitOn ride ' ').map capitalizeWord) ++ " is located at " ++ PARK_NAMES parkId ++ "! I\x27ve switched you to the correct park. ✨\n\nTry asking about it again for current wait times!"

/-- The keyword scan over `ATTRACTION_TO_PARK` (lines 416-443). The optional park in the result records the single `setCurrentPark` call the scan may perform before returning. -/
def scanAttractions (lowerInput : String) (attractions : List Attraction) (currentPark effectivePark : Park) : List (String × Park) → Option (String × Option Park)
  | [] => none
  | (ride, parkId) :: rest =>
    if jsIncludes lowerInput ride then
      match findLiveAttraction attractions parkId ride with
      | some a =>
        some (attractionAnswer lowerInput a parkId effectivePark,
              if parkId = currentPark then none else some parkId)
      | none =>
        if parkId ≠ effectivePark then some (knownRideNoDataAnswer ride parkId, some parkId)
        else scanAttractions lowerInput attractions currentPark effectivePark rest
    else scanAttractions lowerInput attractions currentPark effectivePark rest

/-- Static typical-hours table (lines 484-491). -/
def generalHours : Park → String
  | .magicKingdom => "9:00 AM - 10:00 PM"
  | .epcot => "9:00 AM - 9:00 PM"
  | .hollywoodStudios => "9:00 AM - 9:00 PM"
  | .animalKingdom => "8:00 AM - 8:00 PM"
  | .disneySprings => "10:00 AM - 11:00 PM"
  | .resorts => "24/7 for guests"

/-- Static Disney Springs hours answer (line 447). -/
def springsHoursAnswer : String :=
  "🕐 **Disney Springs Hours:**\n\n⏰ **Typical:** 10:00 AM - 11:00 PM\n📱 **Status:** Open daily\n\n✨ Individual shop and restaurant hours may vary. Check the Disney World app for specific store hours!"

/-- Static Disney Springs info answer (line 449). -/
def springsInfoAnswer : String :=
  "🛍️ **Disney Springs** is Disney\x27s shopping and dining district! I don\x27t have live data for Springs yet, but it\x27s open daily from 10 AM to 11 PM. Check the Disney World app for specific store and restaurant information! ✨"

/-- Static resorts answer (line 453). -/
def resortsAnswer : String :=
  "🏨 **Disney Resort Hotels** are available 24/7 for guests! I don\x27t have specific resort data yet, but you can check the Disney World app or call your resort directly for amenities, dining reservations, and transportation schedules! ✨"

/-- Interpolation of `formatTime` applied to a possibly missing field (a missing field prints as "undefined" in the template literal). -/
def formatTimeOpt (v : Option String) : String :=
  match v with
  | some s => formatTime s
  | none => "undefined"

/-- Cached-hours response assembly (lines 460-482). -/
def cachedHoursAnswer (parkName : String) (today : HoursEntry) (rest : List HoursEntry) : String :=
  let todayLine :=
    if truthyStr today.openingTime && truthyStr today.closingTime then
      "📅 **Today:** " ++ formatTime (today.openingTime.getD "") ++ " - " ++ formatTime (today.closingTime.getD "") ++ "\n"
    else ""
  let dateLine :=
    if truthyStr today.date then "📆 **Date:** " ++ formatDate (today.date.getD "") ++ "\n" else ""
  let tomorrowLine :=
    match rest with
    | t :: _ => "📅 **Tomorrow:** " ++ formatTimeOpt t.openingTime ++ " - " ++ formatTimeOpt t.closingTime ++ "\n"
    | [] => ""
  "🕐 **" ++ parkName ++ " Hours:**\n\n" ++ todayLine ++ dateLine ++ tomorrowLine ++ "\n✨ These are today\x27s official operating hours! Have a magical day! 🏰"

/-- Typical-hours fallback response (lines 484-494). -/
def generalHoursAnswer (effectivePark : Park) : String :=
  "🕐 **" ++ PARK_NAMES effectivePark ++ " Hours:**\n\n⏰ **Typical:** " ++ generalHours effectivePark ++ "\n\n✨ Check the Disney World app for today\x27s exact hours!"

/-- Time-query branch of the Pattern Responder (lines 456-496). -/
def timeQueryAnswer (effectivePark : Park) (parkHours : List ParkHoursRec) : String :=
  match parkHours.find? (fun p => decide (p.park = effectivePark)) with
  | some phr =>
    match phr.entries with
    | some (today :: rest) => cachedHoursAnswer (PARK_NAMES effectivePark) today rest
    | _ => generalHoursAnswer effectivePark
  | none => generalHoursAnswer effectivePark

/-- The branches of `tryPatternMatch` after the keyword scan (lines 445-498); none of them switches park. -/
def patternFallbackAnswer (effectivePark : Park) (analysis : QueryAnalysis) (parkHours : List ParkHoursRec) : Option String :=
  if effectivePark = .disneySprings then
    some (if analysis.isTimeQuery then springsHoursAnswer else springsInfoAnswer)
  else if effectivePark = .resorts then some resortsAnswer
  else if analysis.isTimeQuery && !analysis.isSpecificLocationTime then
    some (timeQueryAnswer effectivePark parkHours)
  else none

/-- Core of `tryPatternMatch` (lines 411-499) over the state pieces it reads: the optional answer together with the optional `setCurrentPark` argument. -/
def tryPatternMatchCore (currentPark : Park) (attractions : List Attraction) (parkHours : List ParkHoursRec) (input : String) (contextPark : Option Park) : Option String × Option Park :=
  let lowerInput := jsToLower input
  let effectivePark := contextPark.getD currentPark
  let analysis := analyzeQuery input
  match scanAttractions lowerInput attractions currentPark effectivePark ATTRACTION_TO_PARK with
  | some (ans, sw) => (some ans, sw)
  | none => (patternFallbackAnswer effectivePark analysis parkHours, none)

/-- `tryPatternMatch` reading its three state dependencies from the chat state. -/
def tryPatternMatch (st : ChatState) (input : String) (contextPark : Option Park) : Option String × Option Park :=
  tryPatternMatchCore st.currentPark st.allAttractions st.allParkHours input contextPark

/-- The session's current park after a bare `tryPatternMatch` call: the argument of its `setCurrentPark` call if it made one, else the unchanged state. -/
def parkAfterPattern (st : ChatState) (input : String) (contextPark : Option Park) : Park :=
  ((tryPatternMatch st input contextPark).2).getD st.currentPark

/-- Outcome of the single completion-provider call of `processUserInput`. `ok false _` models a 2xx JSON body without a `choices` array (accessing `choices[0]` throws); `ok true content` models a body whose first choice has the given message content (absent or a string). -/
inductive CompletionOutcome
  | ok (choicesPresent : Bool) (content : Option String)
  | httpError (status : Nat)
  | networkError
  | malformedBody
deriving DecidableEq

/-- JavaScript `show.times?.join(', ') || 'Check times'`. -/
def showTimesStr (times : Option (List String)) : String :=
  match times with
  | some l => if joinSep ", " l = "" then "Check times" else joinSep ", " l
  | none => "Check times"

/-- JavaScript `meet.characters?.join(', ') || meet.character || 'Character'`. -/
def charNamesStr (m : CharacterMeetRec) : String :=
  match m.characters with
  | some l => if joinSep ", " l = "" then jsOrStr m.character "Character" else joinSep ", " l
  | none => jsOrStr m.character "Character"

/-- JavaScript `meet.times?.join(', ') || meet.time || 'Check times'`. -/
def charTimesStr (m : CharacterMeetRec) : String :=
  match m.times with
  | some l => if joinSep ", " l = "" then jsOrStr m.time "Check times" else joinSep ", " l
  | none => jsOrStr m.time "Check times"

/-- JavaScript `!show.type?.includes('character-meet')`. -/
def isNotCharacterMeetShow (sh : ShowRec) : Bool :=
  match sh.type with
  | some t => !jsIncludes t "character-meet"
  | none => true

/-- The deterministic fallback of the AI composer (lines 610-648 of index.backup.tsx). -/
def detFallback (input : String) (targetPark : Park) (attractions : List Attraction) (entertainment : List EntertainmentRec) (characterMeets : List CharacterMeetRec) : String :=
  let analysis := analyzeQuery input
  let currentParkAttractions := attractions.filter (fun a => decide (a.park = targetPark))
  let currentParkCharacters := characterMeets.filter (fun m => decide (m.park = some targetPark))
  let currentParkEntertainment := ((entertainment.find? (fun e => decide (e.park = targetPark))).map (fun e => e.entertainment)).getD []
  if analysis.isEntertainmentQuery && decide (0 < currentParkEntertainment.length) then
    "🎭 **Entertainment at " ++ PARK_NAMES targetPark ++ ":**\n\n" ++
      String.join (((currentParkEntertainment.filter isNotCharacterMeetShow).take 5).map
        (fun sh => "🎪 **" ++ sh.name ++ "** - " ++ showTimesStr sh.times ++ "\n")) ++
      "\n✨ Enhanced entertainment data! Check Disney app for updates! 🎭"
  else if analysis.isCharacterQuery && decide (0 < currentParkCharacters.length) then
    "🧚‍♀️ **Character Meets at " ++ PARK_NAMES targetPark ++ ":**\n\n" ++
      String.join ((currentParkCharacters.take 3).map
        (fun m => "✨ **" ++ charNamesStr m ++ "** at " ++ m.location ++ " (" ++ charTimesStr m ++ ")\n")) ++
      "\n💫 Character times can change - arrive early! ✨"
  else if analysis.isAttractionQuery && decide (0 < currentParkAttractions.length) then
    "🏰 **" ++ PARK_NAMES targetPark ++ " Top Attractions:**\n\n" ++
      joinSep "\n" ((currentParkAttractions.take 5).map
        (fun a => "🎢 " ++ a.name ++ " - " ++ toString a.waitTime ++ " min" ++ (if a.hasLightningLane then " ⚡" else ""))) ++
      "\n\n✨ Live wait times updated regularly!"
  else
    "✨ I\x27m having a magical moment with the AI! But I have enhanced data including " ++ toString currentParkAttractions.length ++ " attractions, " ++ toString currentParkEntertainment.length ++ " entertainment shows, and " ++ toString currentParkCharacters.length ++ " character meets at " ++ PARK_NAMES targetPark ++ ". Try asking \"show me all rides\", \"what shows are happening\", or \"character meets\"! 🏰"

/-- The AI branch of `processUserInput` (lines 527-648): the single completion attempt and its catch-all fallback. The outgoing prompt assembly does not affect the returned value and is not modelled. -/
def aiCompose (input : String) (targetPark : Park) (attractions : List Attraction) (entertainment : List EntertainmentRec) (characterMeets : List CharacterMeetRec) (outcome : CompletionOutcome) : String :=
  match outcome with
  | .ok choicesPresent content =>
    if choicesPresent then
      match content with
      | some c => if c = "" then "I had a magical moment processing that! ✨" else c
      | none => "I had a magical moment processing that! ✨"
    else detFallback input targetPark attractions entertainment characterMeets
  | .httpError _ => detFallback input targetPark attractions entertainment characterMeets
  | .networkError => detFallback input targetPark attractions entertainment characterMeets
  | .malformedBody => detFallback input targetPark attractions entertainment characterMeets

/-- The AI composer against the stream of outcomes the provider would return on successive attempts; the source issues a single `fetch`, so only the first element can matter. -/
def aiComposeStream (input : String) (targetPark : Park) (attractions : List Attraction) (entertainment : List EntertainmentRec) (characterMeets : List CharacterMeetRec) : List CompletionOutcome → String
  | [] => detFallback input targetPark attractions entertainment characterMeets
  | o :: _ => aiCompose input targetPark attractions entertainment characterMeets o

/-- Static Disney Springs answer of the driver (line 521). -/
def springsFullAnswer : String :=
  "🛍️ **Disney Springs** is Disney\x27s shopping and dining district!\n\n📍 **What\x27s there:** World-class shopping, amazing restaurants, live entertainment\n🕐 **Hours:** 10:00 AM - 11:00 PM daily\n🚗 **Parking:** Free parking available\n\n✨ Check the Disney World app for specific store and restaurant hours!"

/-- Static resorts answer of the driver (line 523). -/
def resortsFullAnswer : String :=
  "🏨 **Disney Resort Hotels** offer magical accommodations!\n\n🏰 **Deluxe Resorts:** Grand Floridian, Polynesian, Contemporary\n🌟 **Moderate Resorts:** Port Orleans, Caribbean Beach, Coronado Springs\n💰 **Value Resorts:** All-Star Movies/Music/Sports, Pop Century, Art of Animation\n\n✨ Each resort has unique theming, dining, and transportation to the parks!"

/-- Result of one `processUserInput` run: the response, the current park after all `setCurrentPark` calls of the run, and the updated recent-context ring buffer. -/
structure PUIResult where
  response : String
  finalPark : Park
  newContext : List String
deriving DecidableEq

/-- `processUserInput` (lines 501-649). The driver switches to the analyzer's target park, then calls `tryPatternMatch` with the pre-switch state in its closure; the park after the run is the pattern scan's switch if it made one, else the target park. `outcome` is what the completion provider would return if called. -/
def processUserInput (st : ChatState) (input : String) (outcome : CompletionOutcome) : PUIResult :=
  let newContext := (st.conversationContext.drop (st.conversationContext.length - 4)) ++ [input]
  let analysis := analyzeQuery input
  let targetPark := analysis.targetPark.getD st.currentPark
  let pat := tryPatternMatch st input (some targetPark)
  { response :=
      match pat.1 with
      | some r => r
      | none =>
        if targetPark = .disneySprings then springsFullAnswer
        else if targetPark = .resorts then resortsFullAnswer
        else aiCompose input targetPark st.allAttractions st.allEntertainment st.allCharacterMeets outcome
    finalPark := pat.2.getD targetPark
    newContext := newContext }

/-- `sendMessage` (lines 651-704) up to its observable state effects. `resolve` stands for the awaited `processUserInput` call; the returned flag records whether the pipeline was invoked. -/
def sendMessage (messageText : Option String) (resolve : String → Except Unit String) (st : ChatState) (now : Nat) : ChatState × Bool :=
  let textToSend :=
    match messageText with
    | some s => if s = "" then jsTrim st.inputText else s
    | none => jsTrim st.inputText
  if textToSend = "" then (st, false)
  else if st.isLoading then (st, false)
  else
    let userMessage : Message :=
      { id := "user_" ++ toString now, text := textToSend, isUser := true,
        timestamp := now, showFeedback := false, feedback := none }
    let st1 := { st with messages := st.messages ++ [userMessage], inputText := "", isLoading := true }
    match resolve textToSend with
    | .ok response =>
      let aiMessage : Message :=
        { id := "ai_" ++ toString now, text := response, isUser := false,
          timestamp := now, showFeedback := true, feedback := none }
      ({ st1 with messages := st1.messages ++ [aiMessage], isLoading := false }, true)
    | .error _ =>
      let errorMessage : Message :=
        { id := "error_" ++ toString now,
          text := "Something magical went wrong! ✨ Try asking me about wait times or park hours!",
          isUser := false, timestamp := now, showFeedback := true, feedback := none }
      ({ st1 with messages := st1.messages ++ [errorMessage], isLoading := false }, true)

/-- The persisted log entry built by `handleFeedback` (lines 231-238); the message text excerpt is read from the pre-update message list. -/
def mkFeedbackEntry (st : ChatState) (messageId : String) (t : FeedbackType) (comment : Option String) (now : Nat) : FeedbackEntry :=
  { messageId := messageId, feedbackType := t, comment := comment, timestamp := now,
    park := st.currentPark,
    messageText := (st.messages.find? (fun m => decide (m.id = messageId))).map (fun m => jsSubstrTo m.text 100) }

/-- `handleFeedback` (lines 224-251): overwrite the matching message's feedback field in memory and append one entry to the persisted log. -/
def handleFeedback (st : ChatState) (messageId : String) (t : FeedbackType) (comment : Option String) (now : Nat) : ChatState :=
  { st with
    messages := st.messages.map
      (fun m => if m.id = messageId then { m with feedback := some ⟨t, comment, now⟩ } else m),
    feedbackLog := st.feedbackLog ++ [mkFeedbackEntry st messageId t comment now] }

/-- Service-layer park identifiers (`ParkId` in PixiePalDataService). -/
inductive ParkId
  | magicKingdom
  | epcot
  | hollywoodStudios
  | animalKingdom
deriving DecidableEq

/-- Embed a service park identifier into the UI park type. -/
def ParkId.toPark : ParkId → Park
  | .magicKingdom => .magicKingdom
  | .epcot => .epcot
  | .hollywoodStudios => .hollywoodStudios
  | .animalKingdom => .animalKingdom

/-- The TypeScript string value of a `ParkId` (used in template-literal ids). -/
def parkIdStr : ParkId → String
  | .magicKingdom => "magicKingdom"
  | .epcot => "epcot"
  | .hollywoodStudios => "hollywoodStudios"
  | .animalKingdom => "animalKingdom"

/-- The proxy slug of a park (`parkMap` / `park.name` in the sources). -/
def parkSlug : ParkId → String
  | .magicKingdom => "magic-kingdom"
  | .epcot => "epcot"
  | .hollywoodStudios => "hollywood-studios"
  | .animalKingdom => "animal-kingdom"

/-- `getParkName` of the service (lines 243-251). -/
def getParkName : ParkId → String
  | .magicKingdom => "Magic Kingdom"
  | .epcot => "EPCOT"
  | .hollywoodStudios => "Disney\x27s Hollywood Studios"
  | .animalKingdom => "Disney\x27s Animal Kingdom"

/-- Untyped JSON field values as delivered to `normalizeAttractions` (`any` in the source). -/
inductive JsVal
  | str (s : String)
  | num (n : Int)
  | boolean (b : Bool)
  | null
deriving DecidableEq

/-- JavaScript truthiness of a JSON value. -/
def jsTruthy : JsVal → Bool
  | .str s => decide (s ≠ "")
  | .num n => decide (n ≠ 0)
  | .boolean b => b
  | .null => false

/-- Truthiness of a possibly missing field (`undefined` is falsy). -/
def jsTruthyOpt (v : Option JsVal) : Bool :=
  match v with
  | some x => jsTruthy x
  | none => false

/-- JavaScript `v || d` on a possibly missing JSON field. -/
def jsOrVal (v : Option JsVal) (d : JsVal) : JsVal :=
  match v with
  | some x => if jsTruthy x then x else d
  | none => d

/-- Template-literal interpolation `${v}` of a possibly missing JSON field. -/
def jsValToString (v : Option JsVal) : String :=
  match v with
  | some (.str s) => s
  | some (.num n) => toString n
  | some (.boolean b) => if b then "true" else "false"
  | some .null => "null"
  | none => "undefined"

/-- Raw attraction record of a wait-times payload; every field is an untyped, possibly missing JSON value. -/
structure RawAttraction where
  id : Option JsVal
  name : Option JsVal
  land : Option JsVal
  area : Option JsVal
  waitTime : Option JsVal
  isOpen : Option JsVal
  hasLightningLane : Option JsVal
  fastPassAvailable : Option JsVal
  lastUpdated : Option JsVal
deriving DecidableEq

/-- Service-layer attraction record (`interface Attraction` of PixiePalDataService). The `name` field keeps the JSON value the source stores there. -/
structure SAttraction where
  id : String
  name : JsVal
  land : Option JsVal
  waitTime : Int
  isOpen : Bool
  hasLightningLane : JsVal
  lastUpdated : Option JsVal
  park : ParkId
deriving DecidableEq

/-- JavaScript `typeof v === 'number' ? v : 0`. -/
def jsNumOrZero (v : Option JsVal) : Int :=
  match v with
  | some (.num n) => n
  | _ => 0

/-- One record of `normalizeAttractions` (lines 230-239 of the service). -/
def normalizeOne (parkId : ParkId) (now : String) (index : Nat) (a : RawAttraction) : SAttraction :=
  { id := parkIdStr parkId ++ "-" ++ (if jsTruthyOpt a.id then jsValToString a.id else toString index)
    name := jsOrVal a.name (.str "Unknown Attraction")
    land := some (jsOrVal a.land (jsOrVal a.area (.str "Unknown Area")))
    waitTime := jsNumOrZero a.waitTime
    isOpen := decide (a.isOpen ≠ some (.boolean false))
    hasLightningLane := jsOrVal a.hasLightningLane (jsOrVal a.fastPassAvailable (.boolean false))
    lastUpdated := some (jsOrVal a.lastUpdated (.str now))
    park := parkId }

/-- Index-threaded body of `normalizeAttractions` (`attractions.map((attraction, index) => ...)`). -/
def normalizeGo (parkId : ParkId) (now : String) : Nat → List RawAttraction → List SAttraction
  | _, [] => []
  | i, a :: as => normalizeOne parkId now i a :: normalizeGo parkId now (i + 1) as

/-- `normalizeAttractions` (lines 229-240 of the service). -/
def normalizeAttractions (attractions : List RawAttraction) (parkId : ParkId) (now : String) : List SAttraction :=
  normalizeGo parkId now 0 attractions

/-- `ParkData` of the service. -/
structure ParkData where
  parkName : String
  parkId : ParkId
  attractions : List SAttraction
  lastUpdated : String
  source : String
deriving DecidableEq

/-- `getFallbackWaitTimes` (lines 349-369 of the service). -/
def getFallbackWaitTimes (parkId : ParkId) (now : String) : ParkData :=
  { parkName := getParkName parkId
    parkId := parkId
    attractions := [{ id := parkIdStr parkId ++ "-fallback-1", name := .str "Check Disney World App",
                      land := none, waitTime := 0, isOpen := true,
                      hasLightningLane := .boolean false, lastUpdated := none, park := parkId }]
    lastUpdated := now
    source := "fallback" }

/-- Wait-times response body; `attractions := none` models a payload without the `attractions` field. -/
structure WaitPayload where
  attractions : Option (List RawAttraction)
deriving DecidableEq

/-- Outcome of one `fetch` of a park-data endpoint in the service. -/
inductive FetchOutcome (α : Type)
  | ok (payload : α)
  | httpError (status : Nat)
  | networkError
  | malformedBody
deriving DecidableEq

/-- `getWaitTimes` (lines 53-91 of the service): a non-2xx status, network error or parse failure degrades to the fallback data; a missing `attractions` field normalizes the empty list. -/
def getWaitTimes (parkId : ParkId) (outcome : FetchOutcome WaitPayload) (now : String) : ParkData :=
  match outcome with
  | .ok payload =>
    { parkName := getParkName parkId
      parkId := parkId
      attractions := normalizeAttractions (payload.attractions.getD []) parkId now
      lastUpdated := now
      source := "disney_proxy" }
  | _ => getFallbackWaitTimes parkId now

/-- UI attraction record produced by the `loadAttractions` mapping (lines 338-346 of index.backup.tsx). -/
structure LoadedAttraction where
  id : String
  name : JsVal
  waitTime : Int
  isOpen : Bool
  hasLightningLane : JsVal
  park : ParkId
  land : Option JsVal
deriving DecidableEq

/-- The `loadAttractions` per-attraction mapping over a service record. On a normalized record `fastPassAvailable` is absent, so `fastPassAvailable || hasLightningLane || false` reduces to the stored `hasLightningLane` or `false`. -/
def loadMapAttraction (slug : String) (parkId : ParkId) (a : SAttraction) : LoadedAttraction :=
  { id := slug ++ "-" ++ a.id
    name := a.name
    waitTime := if a.waitTime ≠ 0 then a.waitTime else 0
    isOpen := a.isOpen || true
    hasLightningLane := if jsTruthy a.hasLightningLane then a.hasLightningLane else .boolean false
    park := parkId
    land := a.land }

/-- Entertainment response body; `entertainment := none` models a payload without the field. -/
structure EntPayload where
  entertainment : Option (List ShowRec)
deriving DecidableEq

/-- Character-meets response body. -/
structure CharPayload where
  characterMeets : Option (List CharacterMeetRec)
deriving DecidableEq

/-- Park-hours response body; `hours := none` models a payload without the nested `hours` array. -/
structure HoursPayload where
  hours : Option (List HoursEntry)
deriving DecidableEq

/-- Result of one direct proxy `fetch` in `loadAttractions`: a non-2xx status, network error or parse failure leaves the local data variable `null`. -/
inductive DirectFetch (α : Type)
  | ok (payload : α)
  | fail
deriving DecidableEq

/-- Accumulators of the `loadAttractions` per-park loop. -/
structure LoadAcc where
  attractions : List LoadedAttraction
  entertainment : List EntertainmentRec
  parkHours : List ParkHoursRec
  characterMeets : List CharacterMeetRec
deriving DecidableEq

/-- Wait-times stage of one `loadAttractions` iteration (lines 300, 336-348). -/
def stepWait (pid : ParkId) (wt : FetchOutcome WaitPayload) (now : String) (acc : LoadAcc) : LoadAcc :=
  let data := getWaitTimes pid wt now
  if decide (0 < data.attractions.length) then
    { acc with attractions := acc.attractions ++ data.attractions.map (loadMapAttraction (parkSlug pid) pid) }
  else acc

/-- Entertainment stage of one `loadAttractions` iteration (lines 302-312, 350-361). -/
def stepEnt (pid : ParkId) (ent : DirectFetch EntPayload) (acc : LoadAcc) : LoadAcc :=
  match ent with
  | .ok p =>
    match p.entertainment with
    | some l => { acc with entertainment := acc.entertainment ++ [⟨pid.toPark, l⟩] }
    | none => acc
  | .fail => acc

/-- Character-meets stage of one `loadAttractions` iteration (lines 314-323, 363-370). -/
def stepChar (pid : ParkId) (chars : DirectFetch CharPayload) (acc : LoadAcc) : LoadAcc :=
  match chars with
  | .ok p =>
    match p.characterMeets with
    | some l => { acc with characterMeets := acc.characterMeets ++ l.map (fun m => { m with park := some pid.toPark }) }
    | none => acc
  | .fail => acc

/-- Park-hours stage of one `loadAttractions` iteration (lines 325-334, 372-378). -/
def stepHours (pid : ParkId) (hrs : DirectFetch HoursPayload) (acc : LoadAcc) : LoadAcc :=
  match hrs with
  | .ok p => { acc with parkHours := acc.parkHours ++ [⟨pid.toPark, p.hours⟩] }
  | .fail => acc

/-- One iteration of the `loadAttractions` per-park loop (lines 296-383), threading the four accumulators through the four category stages. -/
def loadParkStep (pid : ParkId) (wt : FetchOutcome WaitPayload) (ent : DirectFetch EntPayload) (chars : DirectFetch CharPayload) (hrs : DirectFetch HoursPayload) (now : String) (acc : LoadAcc) : LoadAcc :=
  stepHours pid hrs (stepChar pid chars (stepEnt pid ent (stepWait pid wt now acc)))

/-- A string whose code-point list is non-empty is not the empty string. -/
theorem str_ne_empty_of_data {a : String} (h : a.data ≠ []) : a ≠ "" := by
  intro e
  subst e
  exact h rfl

/-- Appending to a non-empty string yields a non-empty string. -/
theorem str_append_ne_empty (a b : String) (h : a.data ≠ []) : a ++ b ≠ "" := by
  apply str_ne_empty_of_data
  rw [String.data_append]
  exact fun hnil => h (List.append_eq_nil.mp hnil).1

/-- An infix of the code-point list is reported by `jsIncludes`. -/
theorem jsIncludes_of_infix {hay needle : String} (h : needle.data <:+: hay.data) :
    jsIncludes hay needle = true := by
  simpa [jsIncludes] using h

/-- The deterministic fallback of the AI composer never returns the empty string. -/
theorem detFallback_ne_empty (input : String) (tp : Park) (atts : List Attraction)
    (ents : List EntertainmentRec) (chars : List CharacterMeetRec) :
    detFallback input tp atts ents chars ≠ "" := by
  unfold detFallback
  dsimp only
  split_ifs
  all_goals
    apply str_ne_empty_of_data
    simp only [String.data_append]
    repeat apply List.append_ne_nil_of_left_ne_nil
    decide

/-- C3. The AI Fallback Composer is total and never empty: for every completion-provider outcome it returns a non-empty string, and it consults only the first outcome the provider would produce (a single attempt, no retries). -/
theorem c3_fallback_total_single_attempt (input : String) (tp : Park) (atts : List Attraction)
    (ents : List EntertainmentRec) (chars : List CharacterMeetRec)
    (o : CompletionOutcome) (rest rest' : List CompletionOutcome) :
    aiComposeStream input tp atts ents chars (o :: rest) ≠ "" ∧
    aiComposeStream input tp atts ents chars (o :: rest) =
      aiComposeStream input tp atts ents chars (o :: rest') := by
  refine ⟨?_, rfl⟩
  show aiCompose input tp atts ents chars o ≠ ""
  cases o with
  | ok choicesPresent content =>
    cases choicesPresent with
    | false => exact detFallback_ne_empty input tp atts ents chars
    | true =>
      cases content with
      | none => exact (by decide : ("I had a magical moment processing that! ✨" : String) ≠ "")
      | some c =>
        show (if c = "" then "I had a magical moment processing that! ✨" else c) ≠ ""
        by_cases hc : c = ""
        · rw [if_pos hc]; decide
        · rw [if_neg hc]; exact hc
  | httpError s => exact detFallback_ne_empty input tp atts ents chars
  | networkError => exact detFallback_ne_empty input tp atts ents chars
  | malformedBody => exact detFallback_ne_empty input tp atts ents chars

/-- C4. A submission with empty effective text, or while a resolution is in flight, is a no-op: the state (messages included) is unchanged and the pipeline is not invoked, for every possible pipeline behaviour. -/
theorem c4_reject_empty_or_busy (resolve : String → Except Unit String) (st : ChatState) (now : Nat)
    (h : jsTrim st.inputText = "" ∨ st.isLoading = true) :
    sendMessage none resolve st now = (st, false) := by
  unfold sendMessage
  rcases h with h | h
  · simp [h]
  · by_cases ht : jsTrim st.inputText = ""
    · simp [ht]
    · simp [ht, h]

/-- Witness state for C4: whitespace-only draft text, not busy. -/
def c4State : ChatState :=
  { currentPark := .magicKingdom, messages := [], inputText := "   ", isLoading := false,
    allAttractions := [], allEntertainment := [], allParkHours := [],
    allCharacterMeets := [], conversationContext := [], feedbackLog := [] }

/-- Witness for C4 at a whitespace-only submission. -/
theorem c4_witness : sendMessage none (fun s => Except.ok s) c4State 3 = (c4State, false) :=
  c4_reject_empty_or_busy (fun s => Except.ok s) c4State 3 (Or.inl (by decide))

/-- C6. The Pattern Responder is deterministic and depends only on the (input, cached data, current park) triple: two states agreeing on the caches and the current park produce identical results, whatever their messages, draft text, busy flag, context buffer or feedback log. -/
theorem c6_pattern_deterministic (s1 s2 : ChatState) (input : String) (contextPark : Option Park)
    (hPark : s1.currentPark = s2.currentPark)
    (hAttr : s1.allAttractions = s2.allAttractions)
    (hHours : s1.allParkHours = s2.allParkHours)
    (_hEnt : s1.allEntertainment = s2.allEntertainment)
    (_hChar : s1.allCharacterMeets = s2.allCharacterMeets) :
    tryPatternMatch s1 input contextPark = tryPatternMatch s2 input contextPark := by
  unfold tryPatternMatch
  rw [hPark, hAttr, hHours]

/-- Common cached hours used by the C6 witness states. -/
def c6Hours : List ParkHoursRec :=
  [⟨.magicKingdom, some [⟨some "2026-10-11", some "09:00", some "22:00"⟩]⟩]

/-- First C6 witness state. -/
def c6StateA : ChatState :=
  { currentPark := .magicKingdom, messages := [], inputText := "draft", isLoading := false,
    allAttractions := [], allEntertainment := [], allParkHours := c6Hours,
    allCharacterMeets := [], conversationContext := ["earlier"], feedbackLog := [] }

/-- Second C6 witness state: same caches and park, different session fields. -/
def c6StateB : ChatState :=
  { currentPark := .magicKingdom,
    messages := [{ id := "m1", text := "hi", isUser := true, timestamp := 1,
                   showFeedback := false, feedback := none }],
    inputText := "", isLoading := true,
    allAttractions := [], allEntertainment := [], allParkHours := c6Hours,
    allCharacterMeets := [], conversationContext := [], feedbackLog := [] }

/-- Witness for C6: the two states differ but the Pattern Responder cannot tell them apart. -/
theorem c6_witness :
    c6StateA.messages ≠ c6StateB.messages ∧
    tryPatternMatch c6StateA "when do the parks open" none =
      tryPatternMatch c6StateB "when do the parks open" none :=
  ⟨by decide, c6_pattern_deterministic c6StateA c6StateB "when do the parks open" none
      rfl rfl rfl rfl rfl⟩

/-- The entertainment stage leaves the attractions accumulator unchanged. -/
theorem stepEnt_attractions (pid : ParkId) (ent : DirectFetch EntPayload) (acc : LoadAcc) :
    (stepEnt pid ent acc).attractions = acc.attractions := by
  unfold stepEnt
  rcases ent with p | _
  · rcases hp : p.entertainment with _ | l <;> simp [hp]
  · rfl

/-- The character-meets stage leaves the attractions accumulator unchanged. -/
theorem stepChar_attractions (pid : ParkId) (chars : DirectFetch CharPayload) (acc : LoadAcc) :
    (stepChar pid chars acc).attractions = acc.attractions := by
  unfold stepChar
  rcases chars with p | _
  · rcases hp : p.characterMeets with _ | l <;> simp [hp]
  · rfl

/-- The park-hours stage leaves the attractions accumulator unchanged. -/
theorem stepHours_attractions (pid : ParkId) (hrs : DirectFetch HoursPayload) (acc : LoadAcc) :
    (stepHours pid hrs acc).attractions = acc.attractions := by
  unfold stepHours
  rcases hrs with p | _ <;> rfl

/-- The character-meets stage leaves the entertainment accumulator unchanged. -/
theorem stepChar_entertainment (pid : ParkId) (chars : DirectFetch CharPayload) (acc : LoadAcc) :
    (stepChar pid chars acc).entertainment = acc.entertainment := by
  unfold stepChar
  rcases chars with p | _
  · rcases hp : p.characterMeets with _ | l <;> simp [hp]
  · rfl

/-- The park-hours stage leaves the entertainment accumulator unchanged. -/
theorem stepHours_entertainment (pid : ParkId) (hrs : DirectFetch HoursPayload) (acc : LoadAcc) :
    (stepHours pid hrs acc).entertainment = acc.entertainment := by
  unfold stepHours
  rcases hrs with p | _ <;> rfl

/-- The wait-times stage leaves the entertainment accumulator unchanged. -/
theorem stepWait_entertainment (pid : ParkId) (wt : FetchOutcome WaitPayload) (now : String) (acc : LoadAcc) :
    (stepWait pid wt now acc).entertainment = acc.entertainment := by
  unfold stepWait
  dsimp only
  split <;> rfl

/-- The wait-times stage leaves the park-hours accumulator unchanged. -/
theorem stepWait_parkHours (pid : ParkId) (wt : FetchOutcome WaitPayload) (now : String) (acc : LoadAcc) :
    (stepWait pid wt now acc).parkHours = acc.parkHours := by
  unfold stepWait
  dsimp only
  split <;> rfl

/-- The entertainment stage leaves the park-hours accumulator unchanged. -/
theorem stepEnt_parkHours (pid : ParkId) (ent : DirectFetch EntPayload) (acc : LoadAcc) :
    (stepEnt pid ent acc).parkHours = acc.parkHours := by
  unfold stepEnt
  rcases ent with p | _
  · rcases hp : p.entertainment with _ | l <;> simp [hp]
  · rfl

/-- The character-meets stage leaves the park-hours accumulator unchanged. -/
theorem stepChar_parkHours (pid : ParkId) (chars : DirectFetch CharPayload) (acc : LoadAcc) :
    (stepChar pid chars acc).parkHours = acc.parkHours := by
  unfold stepChar
  rcases chars with p | _
  · rcases hp : p.characterMeets with _ | l <;> simp [hp]
  · rfl

/-- The wait-times stage leaves the character-meets accumulator unchanged. -/
theorem stepWait_characterMeets (pid : ParkId) (wt : FetchOutcome WaitPayload) (now : String) (acc : LoadAcc) :
    (stepWait pid wt now acc).characterMeets = acc.characterMeets := by
  unfold stepWait
  dsimp only
  split <;> rfl

/-- The entertainment stage leaves the character-meets accumulator unchanged. -/
theorem stepEnt_characterMeets (pid : ParkId) (ent : DirectFetch EntPayload) (acc : LoadAcc) :
    (stepEnt pid ent acc).characterMeets = acc.characterMeets := by
  unfold stepEnt
  rcases ent with p | _
  · rcases hp : p.entertainment with _ | l <;> simp [hp]
  · rfl

/-- The park-hours stage leaves the character-meets accumulator unchanged. -/
theorem stepHours_characterMeets (pid : ParkId) (hrs : DirectFetch HoursPayload) (acc : LoadAcc) :
    (stepHours pid hrs acc).characterMeets = acc.characterMeets := by
  unfold stepHours
  rcases hrs with p | _ <;> rfl

/-- The entertainment stage's entertainment result depends only on its own outcome and the incoming entertainment accumulator. -/
theorem stepEnt_entertainment_congr (pid : ParkId) (ent : DirectFetch EntPayload) {x y : LoadAcc}
    (h : x.entertainment = y.entertainment) :
    (stepEnt pid ent x).entertainment = (stepEnt pid ent y).entertainment := by
  unfold stepEnt
  rcases ent with p | _
  · rcases hp : p.entertainment with _ | l <;> simp [hp, h]
  · exact h

/-- The character-meets stage's character-meets result depends only on its own outcome and the incoming character-meets accumulator. -/
theorem stepChar_characterMeets_congr (pid : ParkId) (chars : DirectFetch CharPayload) {x y : LoadAcc}
    (h : x.characterMeets = y.characterMeets) :
    (stepChar pid chars x).characterMeets = (stepChar pid chars y).characterMeets := by
  unfold stepChar
  rcases chars with p | _
  · rcases hp : p.characterMeets with _ | l <;> simp [hp, h]
  · exact h

/-- The park-hours stage's park-hours result depends only on its own outcome and the incoming park-hours accumulator. -/
theorem stepHours_parkHours_congr (pid : ParkId) (hrs : DirectFetch HoursPayload) {x y : LoadAcc}
    (h : x.parkHours = y.parkHours) :
    (stepHours pid hrs x).parkHours = (stepHours pid hrs y).parkHours := by
  unfold stepHours
  rcases hrs with p | _
  · simp [h]
  · exact h

/-- C9. Per-category degradation of the park-data fetches. Wait times: a missing `attractions` field yields an empty attraction list, and every failure returns the designated fallback data instead of raising. Entertainment: a failed or field-less response leaves the entertainment accumulator untouched. Park hours: a failed fetch leaves the park-hours accumulator untouched, a payload without the nested `hours` array stores an entries-less record, and the Pattern Responder treats a stored entries-less record, like an absent record, as "no data" (the static typical-hours fallback). No blocking: each of the four accumulators depends only on its own category's outcome, so a failing category never blocks the others. -/
theorem c9_fetch_degrades :
    (∀ (pid : ParkId) (now : String),
      (getWaitTimes pid (.ok ⟨none⟩) now).attractions = []) ∧
    (∀ (pid : ParkId) (s : Nat) (now : String),
      getWaitTimes pid (.httpError s) now = getFallbackWaitTimes pid now) ∧
    (∀ (pid : ParkId) (now : String),
      getWaitTimes pid .networkError now = getFallbackWaitTimes pid now) ∧
    (∀ (pid : ParkId) (now : String),
      getWaitTimes pid .malformedBody now = getFallbackWaitTimes pid now) ∧
    (∀ (pid : ParkId) (wt : FetchOutcome WaitPayload) (chars : DirectFetch CharPayload)
       (hrs : DirectFetch HoursPayload) (now : String) (acc : LoadAcc),
      (loadParkStep pid wt .fail chars hrs now acc).entertainment = acc.entertainment ∧
      (loadParkStep pid wt (.ok ⟨none⟩) chars hrs now acc).entertainment = acc.entertainment) ∧
    (∀ (pid : ParkId) (wt : FetchOutcome WaitPayload) (ent : DirectFetch EntPayload)
       (chars : DirectFetch CharPayload) (now : String) (acc : LoadAcc),
      (loadParkStep pid wt ent chars .fail now acc).parkHours = acc.parkHours ∧
      (loadParkStep pid wt ent chars (.ok ⟨none⟩) now acc).parkHours =
        acc.parkHours ++ [⟨pid.toPark, none⟩]) ∧
    (∀ p : Park,
      timeQueryAnswer p [⟨p, none⟩] = generalHoursAnswer p ∧
      timeQueryAnswer p [] = generalHoursAnswer p) ∧
    (∀ (pid : ParkId) (now : String) (acc : LoadAcc)
       (w w' : FetchOutcome WaitPayload) (e e' : DirectFetch EntPayload)
       (ch ch' : DirectFetch CharPayload) (h h' : DirectFetch HoursPayload),
      (loadParkStep pid w e ch h now acc).attractions =
        (loadParkStep pid w e' ch' h' now acc).attractions ∧
      (loadParkStep pid w e ch h now acc).entertainment =
        (loadParkStep pid w' e ch' h' now acc).entertainment ∧
      (loadParkStep pid w e ch h now acc).parkHours =
        (loadParkStep pid w' e' ch' h now acc).parkHours ∧
      (loadParkStep pid w e ch h now acc).characterMeets =
        (loadParkStep pid w' e' ch h' now acc).characterMeets) := by
  refine ⟨fun pid now => rfl, fun pid s now => rfl, fun pid now => rfl, fun pid now => rfl,
    ?_, ?_, ?_, ?_⟩
  · intro pid wt chars hrs now acc
    constructor
    · unfold loadParkStep
      rw [stepHours_entertainment, stepChar_entertainment]
      rw [show stepEnt pid .fail (stepWait pid wt now acc) = stepWait pid wt now acc from rfl]
      exact stepWait_entertainment pid wt now acc
    · unfold loadParkStep
      rw [stepHours_entertainment, stepChar_entertainment]
      rw [show stepEnt pid (.ok ⟨none⟩) (stepWait pid wt now acc) = stepWait pid wt now acc from rfl]
      exact stepWait_entertainment pid wt now acc
  · intro pid wt ent chars now acc
    constructor
    · unfold loadParkStep
      rw [show stepHours pid .fail (stepChar pid chars (stepEnt pid ent (stepWait pid wt now acc))) =
            stepChar pid chars (stepEnt pid ent (stepWait pid wt now acc)) from rfl]
      rw [stepChar_parkHours, stepEnt_parkHours, stepWait_parkHours]
    · unfold loadParkStep
      show (stepChar pid chars (stepEnt pid ent (stepWait pid wt now acc))).parkHours ++
          [⟨pid.toPark, none⟩] = acc.parkHours ++ [⟨pid.toPark, none⟩]
      rw [stepChar_parkHours, stepEnt_parkHours, stepWait_parkHours]
  · intro p
    exact ⟨by cases p <;> decide, by cases p <;> decide⟩
  · intro pid now acc w w' e e' ch ch' h h'
    refine ⟨?_, ?_, ?_, ?_⟩
    · unfold loadParkStep
      rw [stepHours_attractions, stepChar_attractions, stepEnt_attractions,
          stepHours_attractions, stepChar_attractions, stepEnt_attractions]
    · unfold loadParkStep
      rw [stepHours_entertainment, stepChar_entertainment,
          stepHours_entertainment, stepChar_entertainment]
      exact stepEnt_entertainment_congr pid e
        (by rw [stepWait_entertainment, stepWait_entertainment])
    · unfold loadParkStep
      exact stepHours_parkHours_congr pid h
        (by rw [stepChar_parkHours, stepEnt_parkHours, stepWait_parkHours,
                stepChar_parkHours, stepEnt_parkHours, stepWait_parkHours])
    · unfold loadParkStep
      rw [stepHours_characterMeets, stepHours_characterMeets]
      exact stepChar_characterMeets_congr pid ch
        (by rw [stepEnt_characterMeets, stepWait_characterMeets,
                stepEnt_characterMeets, stepWait_characterMeets])

/-- Updating the feedback field by message id sets the latest record on every matching message. -/
theorem feedback_map_sets {l : List Message} {mid : String} {fb : FeedbackRec} {m : Message}
    (hm : m ∈ l.map (fun msg => if msg.id = mid then { msg with feedback := some fb } else msg))
    (hid : m.id = mid) : m.feedback = some fb := by
  rcases List.mem_map.mp hm with ⟨a, _, rfl⟩
  by_cases h : a.id = mid
  · rw [if_pos h]
  · rw [if_neg h] at hid ⊢
    exact absurd hid h

/-- C8. Feedback attachment: the matching message's in-memory feedback field equals the latest attachment (re-attachment overwrites it), while every attachment appends exactly one new entry to the persisted feedback log. -/
theorem c8_feedback_overwrite_append (st : ChatState) (mid : String) (t t' : FeedbackType)
    (cm cm' : Option String) (n n' : Nat) :
    (∀ m ∈ (handleFeedback st mid t cm n).messages, m.id = mid → m.feedback = some ⟨t, cm, n⟩) ∧
    (handleFeedback st mid t cm n).feedbackLog = st.feedbackLog ++ [mkFeedbackEntry st mid t cm n] ∧
    (∀ m ∈ (handleFeedback (handleFeedback st mid t cm n) mid t' cm' n').messages,
      m.id = mid → m.feedback = some ⟨t', cm', n'⟩) ∧
    (handleFeedback (handleFeedback st mid t cm n) mid t' cm' n').feedbackLog =
      st.feedbackLog ++ [mkFeedbackEntry st mid t cm n,
        mkFeedbackEntry (handleFeedback st mid t cm n) mid t' cm' n'] := by
  refine ⟨?_, rfl, ?_, ?_⟩
  · intro m hm hid
    exact feedback_map_sets hm hid
  · intro m hm hid
    exact feedback_map_sets hm hid
  · show (st.feedbackLog ++ [mkFeedbackEntry st mid t cm n]) ++ [_] = _
    rw [List.append_assoc]
    rfl

/-- Witness state for C8: a single assistant message awaiting feedback. -/
def c8State : ChatState :=
  { currentPark := .epcot,
    messages := [{ id := "m1", text := "answer", isUser := false, timestamp := 1,
                   showFeedback := true, feedback := none }],
    inputText := "", isLoading := false,
    allAttractions := [], allEntertainment := [], allParkHours := [],
    allCharacterMeets := [], conversationContext := [], feedbackLog := [] }

/-- Witness for C8 at a concrete message and feedback pair. -/
theorem c8_witness :
    ({ id := "m1", text := "answer", isUser := false, timestamp := 1,
       showFeedback := true, feedback := some ⟨FeedbackType.positive, none, 7⟩ } : Message).feedback =
      some ⟨FeedbackType.positive, none, 7⟩ :=
  (c8_feedback_overwrite_append c8State "m1" .positive .negative none none 7 8).1
    { id := "m1", text := "answer", isUser := false, timestamp := 1,
      showFeedback := true, feedback := some ⟨FeedbackType.positive, none, 7⟩ }
    (by decide) (by decide)

/-- Cached attraction used by the C2 scenario. -/
def c2Attraction : Attraction :=
  { id := "mk-1", name := "Space Mountain", waitTime := 45, isOpen := true,
    hasLightningLane := true, park := .magicKingdom, land := some "Tomorrowland" }

/-- C2 scenario state: the Space Mountain record cached, current park EPCOT. -/
def c2State : ChatState :=
  { currentPark := .epcot, messages := [], inputText := "", isLoading := false,
    allAttractions := [c2Attraction], allEntertainment := [], allParkHours := [],
    allCharacterMeets := [], conversationContext := [], feedbackLog := [] }

set_option maxRecDepth 8000 in
/-- C2. Scenario "how long is the wait for space mountain" with the cached Space Mountain record (45 min, Lightning Lane) and current park EPCOT: the response mentions the 45 minute wait and Lightning Lane availability, and the current park afterwards is Magic Kingdom. -/
theorem c2_space_mountain_scenario :
    (tryPatternMatch c2State "how long is the wait for space mountain" none).1.map
      (fun r => jsIncludes r "45 minute wait" && jsIncludes r "Lightning Lane") = some true ∧
    parkAfterPattern c2State "how long is the wait for space mountain" none = Park.magicKingdom := by
  constructor <;> decide

/-- C7 counterexample state: Magic Kingdom selected, empty caches. -/
def c7State : ChatState :=
  { currentPark := .magicKingdom, messages := [], inputText := "", isLoading := false,
    allAttractions := [], allEntertainment := [], allParkHours := [],
    allCharacterMeets := [], conversationContext := [], feedbackLog := [] }

/-- C7 counterexample. The claim that the Pattern Responder is the only component mutating the current park is false: on "i love epcot rides" the Pattern Responder performs no switch (it returns the no-match signal), yet the driver changes the current park to EPCOT from the analyzer's keyword resolution before the fallback composer answers. -/
theorem c7_counterexample :
    (tryPatternMatch c7State "i love epcot rides" (some Park.epcot)).2 = none ∧
    (tryPatternMatch c7State "i love epcot rides" (some Park.epcot)).1 = none ∧
    (processUserInput c7State "i love epcot rides" .networkError).finalPark = Park.epcot ∧
    (processUserInput c7State "i love epcot rides" .networkError).finalPark ≠ c7State.currentPark := by
  refine ⟨by decide, by decide, by decide, by decide⟩

/-- C7 amended. The current park after one `processUserInput` run is fully determined by the driver's analyzer-keyword switch and the Pattern Responder's switch: the completion-provider outcome (the fallback composer) never affects it, and it equals the Pattern Responder's switch value when one was made, else the analyzer's target park. -/
theorem c7_amended_park_mutation (st : ChatState) (input : String) (o o' : CompletionOutcome) :
    (processUserInput st input o).finalPark = (processUserInput st input o').finalPark ∧
    (processUserInput st input o).finalPark =
      ((tryPatternMatch st input (some ((analyzeQuery input).targetPark.getD st.currentPark))).2).getD
        ((analyzeQuery input).targetPark.getD st.currentPark) := by
  exact ⟨rfl, rfl⟩

/-- Raw record whose name field is the JSON number 42. -/
def rawNumName : RawAttraction :=
  { id := none, name := some (.num 42), land := none, area := none, waitTime := none,
    isOpen := none, hasLightningLane := none, fastPassAvailable := none, lastUpdated := none }

/-- C10 counterexample. `normalizeAttractions` does not guarantee a string-valued name: a truthy non-string raw name (the JSON number 42) is passed through unchanged by `name || 'Unknown Attraction'`. -/
theorem c10_counterexample :
    ¬ (∀ (raws : List RawAttraction) (pid : ParkId) (now : String) (a : SAttraction),
        a ∈ normalizeAttractions raws pid now → ∃ s, a.name = JsVal.str s ∧ s ≠ "") := by
  intro h
  have hmem : normalizeOne ParkId.magicKingdom "t" 0 rawNumName ∈
      normalizeAttractions [rawNumName] ParkId.magicKingdom "t" := by decide
  obtain ⟨s, hs, -⟩ := h [rawNumName] ParkId.magicKingdom "t" _ hmem
  have hval : (normalizeOne ParkId.magicKingdom "t" 0 rawNumName).name = JsVal.num 42 := by decide
  rw [hval] at hs
  exact JsVal.noConfusion hs

/-- A defaulted JSON field keeps a truthy default truthy. -/
theorem jsTruthy_jsOrVal (v : Option JsVal) (d : JsVal) (hd : jsTruthy d = true) :
    jsTruthy (jsOrVal v d) = true := by
  unfold jsOrVal
  rcases v with _ | x
  · exact hd
  · dsimp only
    split
    · assumption
    · exact hd

/-- If the defaulted name is a string, it is non-empty. -/
theorem jsOrVal_str_ne_empty (v : Option JsVal) {s : String}
    (h : jsOrVal v (.str "Unknown Attraction") = .str s) : s ≠ "" := by
  have ht := jsTruthy_jsOrVal v (.str "Unknown Attraction") (by decide)
  rw [h] at ht
  simpa [jsTruthy] using ht

/-- Every member of the index-threaded normalization is `normalizeOne` of some raw record of the input. -/
theorem normalizeGo_mem {pid : ParkId} {now : String} :
    ∀ (i : Nat) (raws : List RawAttraction) (a : SAttraction),
      a ∈ normalizeGo pid now i raws → ∃ j r, r ∈ raws ∧ a = normalizeOne pid now j r := by
  intro i raws
  induction raws generalizing i with
  | nil => intro a ha; cases ha
  | cons r rs ih =>
    intro a ha
    simp only [normalizeGo] at ha
    rcases List.mem_cons.mp ha with h | h
    · exact ⟨i, r, List.mem_cons_self r rs, h⟩
    · obtain ⟨j, r', hr', ha'⟩ := ih (i + 1) a h
      exact ⟨j, r', List.mem_cons_of_mem r hr', ha'⟩

/-- Invariants of one normalized record, relative to its raw record. -/
theorem normalizeOne_spec (pid : ParkId) (now : String) (j : Nat) (r : RawAttraction) :
    (normalizeOne pid now j r).park = pid ∧
    jsTruthy (normalizeOne pid now j r).name = true ∧
    (∀ s, (normalizeOne pid now j r).name = JsVal.str s → s ≠ "") ∧
    (normalizeOne pid now j r).waitTime = jsNumOrZero r.waitTime ∧
    (normalizeOne pid now j r).isOpen = decide (r.isOpen ≠ some (JsVal.boolean false)) ∧
    (normalizeOne pid now j r).name = jsOrVal r.name (JsVal.str "Unknown Attraction") := by
  refine ⟨rfl, ?_, ?_, rfl, rfl, rfl⟩
  · exact jsTruthy_jsOrVal r.name (.str "Unknown Attraction") (by decide)
  · intro s hs
    exact jsOrVal_str_ne_empty r.name hs

/-- C10 amended. Every record produced by `normalizeAttractions` has the requested park, a numeric wait time defaulting to 0, an open flag that is true unless the raw record says exactly `false`, and a truthy name defaulting to "Unknown Attraction" that is non-empty whenever it is a string (a truthy non-string raw name passes through unchanged); the same park and name invariants hold for every attraction of a successful `getWaitTimes` result. -/
theorem c10_amended_normalize_invariants :
    (∀ (raws : List RawAttraction) (pid : ParkId) (now : String) (a : SAttraction),
      a ∈ normalizeAttractions raws pid now →
        a.park = pid ∧ jsTruthy a.name = true ∧ (∀ s, a.name = JsVal.str s → s ≠ "") ∧
        ∃ r ∈ raws, a.waitTime = jsNumOrZero r.waitTime ∧
          a.isOpen = decide (r.isOpen ≠ some (JsVal.boolean false)) ∧
          a.name = jsOrVal r.name (JsVal.str "Unknown Attraction")) ∧
    (∀ (pid : ParkId) (payload : WaitPayload) (now : String) (a : SAttraction),
      a ∈ (getWaitTimes pid (.ok payload) now).attractions →
        a.park = pid ∧ jsTruthy a.name = true ∧ ∀ s, a.name = JsVal.str s → s ≠ "") := by
  have main : ∀ (raws : List RawAttraction) (pid : ParkId) (now : String) (a : SAttraction),
      a ∈ normalizeAttractions raws pid now →
        a.park = pid ∧ jsTruthy a.name = true ∧ (∀ s, a.name = JsVal.str s → s ≠ "") ∧
        ∃ r ∈ raws, a.waitTime = jsNumOrZero r.waitTime ∧
          a.isOpen = decide (r.isOpen ≠ some (JsVal.boolean false)) ∧
          a.name = jsOrVal r.name (JsVal.str "Unknown Attraction") := by
    intro raws pid now a ha
    obtain ⟨j, r, hr, rfl⟩ := normalizeGo_mem 0 raws a ha
    obtain ⟨h1, h2, h3, h4, h5, h6⟩ := normalizeOne_spec pid now j r
    exact ⟨h1, h2, h3, r, hr, h4, h5, h6⟩
  refine ⟨main, ?_⟩
  intro pid payload now a ha
  obtain ⟨h1, h2, h3, -⟩ := main (payload.attractions.getD []) pid now a ha
  exact ⟨h1, h2, h3⟩

/-- Raw record with a plain string name. -/
def rawStrName : RawAttraction :=
  { id := none, name := some (.str "Pirates"), land := none, area := none,
    waitTime := some (.num 15), isOpen := none, hasLightningLane := none,
    fastPassAvailable := none, lastUpdated := none }

/-- Witness for C10 at a concrete raw record. -/
theorem c10_witness :
    (normalizeOne ParkId.epcot "tick" 0 rawStrName).park = ParkId.epcot :=
  (c10_amended_normalize_invariants.1 [rawStrName] ParkId.epcot "tick"
    (normalizeOne ParkId.epcot "tick" 0 rawStrName) (by decide)).1

/-- Park value recorded by one scan result, defaulting to the unchanged current park. -/
def scanParkResult (cp : Park) (r : Option (String × Option Park)) : Park :=
  match r with
  | some (_, sw) => sw.getD cp
  | none => cp

/-- The keyword scan returns no match when no keyword of the mapping occurs in the input. -/
theorem scanAttractions_none {lowerInput : String} {attractions : List Attraction} {cp ep : Park} :
    ∀ {l : List (String × Park)}, (∀ e ∈ l, jsIncludes lowerInput e.1 = false) →
      scanAttractions lowerInput attractions cp ep l = none := by
  intro l
  induction l with
  | nil => intro _; rfl
  | cons hd tl ih =>
    intro h
    obtain ⟨ride, parkId⟩ := hd
    have hhd : jsIncludes lowerInput ride = false := h (ride, parkId) (List.mem_cons_self _ _)
    simp only [scanAttractions, hhd, Bool.false_eq_true, if_false]
    exact ih fun e he => h e (List.mem_cons_of_mem _ he)

/-- When every matching entry owns the current park, the scan leaves the park at the current park. -/
theorem scan_park_current {lowerInput : String} {attractions : List Attraction} {cp : Park}
    {k : String} :
    ∀ {l : List (String × Park)},
      (∀ e ∈ l, jsIncludes lowerInput e.1 = true → e = (k, cp)) →
      scanParkResult cp (scanAttractions lowerInput attractions cp cp l) = cp := by
  intro l
  induction l with
  | nil => intro _; rfl
  | cons hd tl ih =>
    intro h
    obtain ⟨ride, parkId⟩ := hd
    by_cases hin : jsIncludes lowerInput ride = true
    · have heq := h (ride, parkId) (List.mem_cons_self _ _) hin
      have hpk : parkId = cp := congrArg Prod.snd heq
      simp only [scanAttractions, hin, if_true]
      cases hf : findLiveAttraction attractions parkId ride with
      | some a => simp [scanParkResult, hpk]
      | none =>
        simp only [hpk, ne_eq, not_true, if_false, ite_not, if_pos rfl]
        exact ih fun e he hke => h e (List.mem_cons_of_mem _ he) hke
    · have hf : jsIncludes lowerInput ride = false := by simpa using hin
      simp only [scanAttractions, hf, Bool.false_eq_true, if_false]
      exact ih fun e he hke => h e (List.mem_cons_of_mem _ he) hke

/-- When the input contains exactly one keyword of the list, the scan leaves the park at that keyword's owning park (current and effective park coinciding). -/
theorem scan_park_unique {lowerInput : String} {attractions : List Attraction} {cp : Park}
    {k : String} {p : Park} :
    ∀ {l : List (String × Park)}, (k, p) ∈ l → jsIncludes lowerInput k = true →
      (∀ e ∈ l, jsIncludes lowerInput e.1 = true → e = (k, p)) →
      scanParkResult cp (scanAttractions lowerInput attractions cp cp l) = p := by
  intro l
  induction l with
  | nil => intro hmem; cases hmem
  | cons hd tl ih =>
    intro hmem hk h
    obtain ⟨ride, parkId⟩ := hd
    by_cases hin : jsIncludes lowerInput ride = true
    · have heq := h (ride, parkId) (List.mem_cons_self _ _) hin
      have hride : ride = k := congrArg Prod.fst heq
      have hpark : parkId = p := congrArg Prod.snd heq
      simp only [scanAttractions, hin, if_true]
      cases hf : findLiveAttraction attractions parkId ride with
      | some a =>
        by_cases hc : parkId = cp
        · simp [scanParkResult, hc, ← hpark]
        · simp [scanParkResult, hc, ← hpark]
      | none =>
        by_cases hc : parkId = cp
        · subst hpark
          simp only [hc, ne_eq, not_true, if_false, ite_not, if_pos rfl]
          subst hc
          exact scan_park_current fun e he hke => h e (List.mem_cons_of_mem _ he) hke
        · simp only [ne_eq, hc, not_false_iff, if_true, ite_not, if_neg hc]
          simp [scanParkResult, ← hpark]
    · have hf : jsIncludes lowerInput ride = false := by simpa using hin
      have hmem' : (k, p) ∈ tl := by
        rcases List.mem_cons.mp hmem with h1 | h1
        · exfalso
          have : ride = k := congrArg Prod.fst h1.symm
          rw [this] at hin
          exact hin hk
        · exact h1
      simp only [scanAttractions, hf, Bool.false_eq_true, if_false]
      exact ih hmem' hk fun e he hke => h e (List.mem_cons_of_mem _ he) hke

/-- C1 amended. For every input containing a keyword of the attraction mapping and no other keyword of the mapping, the Pattern Responder called without a context-park override leaves the session's current-park state equal to that keyword's owning park, whatever the current park and cached data. -/
theorem c1_amended_owning_park (st : ChatState) (input k : String) (p : Park)
    (hmem : (k, p) ∈ ATTRACTION_TO_PARK)
    (hinc : jsIncludes (jsToLower input) k = true)
    (huniq : ∀ e ∈ ATTRACTION_TO_PARK, jsIncludes (jsToLower input) e.1 = true → e = (k, p)) :
    parkAfterPattern st input none = p := by
  have hscan := @scan_park_unique (jsToLower input) st.allAttractions st.currentPark k p
    ATTRACTION_TO_PARK hmem hinc huniq
  unfold parkAfterPattern tryPatternMatch tryPatternMatchCore
  dsimp only [Option.getD]
  cases hres : scanAttractions (jsToLower input) st.allAttractions st.currentPark st.currentPark
      ATTRACTION_TO_PARK with
  | none =>
    rw [hres] at hscan
    simpa [scanParkResult] using hscan
  | some pr =>
    obtain ⟨ans, sw⟩ := pr
    rw [hres] at hscan
    simpa [scanParkResult] using hscan

/-- Witness state for C1: EPCOT selected, no cached data. -/
def c1State : ChatState :=
  { currentPark := .epcot, messages := [], inputText := "", isLoading := false,
    allAttractions := [], allEntertainment := [], allParkHours := [],
    allCharacterMeets := [], conversationContext := [], feedbackLog := [] }

set_option maxRecDepth 8000 in
/-- Witness for C1 at the input "space mountain please". -/
theorem c1_witness : parkAfterPattern c1State "space mountain please" none = Park.magicKingdom :=
  c1_amended_owning_park c1State "space mountain please" "space mountain" Park.magicKingdom
    (by decide) (by decide) (by decide)

/-- Cached Space Mountain record used by the C1 and C5 counterexamples. -/
def spaceMountainRec : Attraction :=
  { id := "mk-1", name := "Space Mountain", waitTime := 45, isOpen := true,
    hasLightningLane := true, park := .magicKingdom, land := some "Tomorrowland" }

/-- Cached Test Track record used by the C1 counterexample. -/
def c1TestTrack : Attraction :=
  { id := "ep-1", name := "Test Track", waitTime := 30, isOpen := true,
    hasLightningLane := false, park := .epcot, land := some "Future World" }

/-- C1 counterexample state: both keyword attractions cached, EPCOT selected. -/
def c1CounterState : ChatState :=
  { currentPark := .epcot, messages := [], inputText := "", isLoading := false,
    allAttractions := [spaceMountainRec, c1TestTrack], allEntertainment := [], allParkHours := [],
    allCharacterMeets := [], conversationContext := [], feedbackLog := [] }

set_option maxRecDepth 8000 in
/-- C1 counterexample. The claim quantifies over every contained keyword: the input "space mountain test track" contains the keyword "test track" owned by EPCOT, yet the scan answers for the earlier mapping entry and the current park afterwards is Magic Kingdom, not EPCOT. -/
theorem c1_counterexample :
    ("test track", Park.epcot) ∈ ATTRACTION_TO_PARK ∧
    jsIncludes (jsToLower "space mountain test track") "test track" = true ∧
    parkAfterPattern c1CounterState "space mountain test track" none ≠ Park.epcot ∧
    parkAfterPattern c1CounterState "space mountain test track" none = Park.magicKingdom := by
  refine ⟨by decide, by decide, by decide, by decide⟩

/-- C5 counterexample state: Space Mountain cached and today's hours cached for Magic Kingdom. -/
def c5CounterState : ChatState :=
  { currentPark := .magicKingdom, messages := [], inputText := "", isLoading := false,
    allAttractions := [spaceMountainRec], allEntertainment := [],
    allParkHours := [⟨.magicKingdom, some [⟨some "2026-10-11", some "09:00", some "22:00"⟩]⟩],
    allCharacterMeets := [], conversationContext := [], feedbackLog := [] }

set_option maxRecDepth 8000 in
/-- C5 counterexample. "what time does space mountain close" is classified as a time query and its target park has cached hours with a non-null opening/closing pair, yet the Pattern Responder answers it from the attraction-keyword branch: the response does not contain the formatted opening time. -/
theorem c5_counterexample :
    (analyzeQuery "what time does space mountain close").isTimeQuery = true ∧
    c5CounterState.allParkHours =
      [⟨.magicKingdom, some [⟨some "2026-10-11", some "09:00", some "22:00"⟩]⟩] ∧
    (tryPatternMatch c5CounterState "what time does space mountain close" none).1.map
      (fun r => jsIncludes r (formatTime "09:00")) = some false := by
  refine ⟨by decide, rfl, by decide⟩

/-- The formatted opening time occurs in the assembled hours string, whatever the park name and the trailing pieces. -/
theorem contains_open_generic (pn fo fc d t f : String) :
    jsIncludes ("🕐 **" ++ pn ++ " Hours:**\n\n" ++
      ("📅 **Today:** " ++ fo ++ " - " ++ fc ++ "\n") ++ d ++ t ++ f) fo = true := by
  apply jsIncludes_of_infix
  refine ⟨("🕐 **" ++ pn ++ " Hours:**\n\n" ++ "📅 **Today:** ").data,
    (" - " ++ fc ++ "\n" ++ d ++ t ++ f).data, ?_⟩
  simp [String.data_append, List.append_assoc]

/-- The formatted closing time occurs in the assembled hours string, whatever the park name and the trailing pieces. -/
theorem contains_close_generic (pn fo fc d t f : String) :
    jsIncludes ("🕐 **" ++ pn ++ " Hours:**\n\n" ++
      ("📅 **Today:** " ++ fo ++ " - " ++ fc ++ "\n") ++ d ++ t ++ f) fc = true := by
  apply jsIncludes_of_infix
  refine ⟨("🕐 **" ++ pn ++ " Hours:**\n\n" ++ "📅 **Today:** " ++ fo ++ " - ").data,
    ("\n" ++ d ++ t ++ f).data, ?_⟩
  simp [String.data_append, List.append_assoc]

/-- The cached-hours response contains both formatted times when today's pair is present and non-empty. -/
theorem cachedHoursAnswer_contains (parkName : String) (today : HoursEntry)
    (rest : List HoursEntry) (o c : String)
    (ho : today.openingTime = some o) (ho2 : o ≠ "")
    (hc : today.closingTime = some c) (hc2 : c ≠ "") :
    jsIncludes (cachedHoursAnswer parkName today rest) (formatTime o) = true ∧
    jsIncludes (cachedHoursAnswer parkName today rest) (formatTime c) = true := by
  unfold cachedHoursAnswer
  dsimp only
  rw [ho, hc]
  have hcond : (truthyStr (some o) && truthyStr (some c)) = true := by
    simp [truthyStr, ho2, hc2]
  rw [hcond, if_pos rfl]
  simp only [Option.getD_some]
  constructor
  · exact contains_open_generic parkName (formatTime o) (formatTime c) _ _ _
  · exact contains_close_generic parkName (formatTime o) (formatTime c) _ _ _

/-- C5 amended. For every input classified as a time query (not venue-specific), containing no attraction keyword, with the current park one of the four theme parks and its cached hours present with a non-empty opening/closing pair for today, the Pattern Responder's response contains both times converted to 12-hour clock strings, with "09:00" rendered as "9:00 AM". -/
theorem c5_amended_hours_times (st : ChatState) (input : String) (phr : ParkHoursRec)
    (today : HoursEntry) (rest : List HoursEntry) (o c : String)
    (hnokw : ∀ e ∈ ATTRACTION_TO_PARK, jsIncludes (jsToLower input) e.1 = false)
    (hsprings : st.currentPark ≠ Park.disneySprings)
    (hresorts : st.currentPark ≠ Park.resorts)
    (ht : (analyzeQuery input).isTimeQuery = true)
    (hloc : (analyzeQuery input).isSpecificLocationTime = false)
    (hfind : st.allParkHours.find? (fun q => decide (q.park = st.currentPark)) = some phr)
    (hentries : phr.entries = some (today :: rest))
    (ho : today.openingTime = some o) (ho2 : o ≠ "")
    (hc : today.closingTime = some c) (hc2 : c ≠ "") :
    (∃ resp, (tryPatternMatch st input none).1 = some resp ∧
      jsIncludes resp (formatTime o) = true ∧ jsIncludes resp (formatTime c) = true) ∧
    formatTime "09:00" = "9:00 AM" := by
  refine ⟨?_, by decide⟩
  unfold tryPatternMatch tryPatternMatchCore
  dsimp only [Option.getD]
  rw [scanAttractions_none hnokw]
  dsimp only
  unfold patternFallbackAnswer
  rw [if_neg hsprings, if_neg hresorts, ht, hloc,
    if_pos (by decide : (true && !false) = true)]
  unfold timeQueryAnswer
  rw [hfind]
  dsimp only
  rw [hentries]
  exact ⟨cachedHoursAnswer (PARK_NAMES st.currentPark) today rest, rfl,
    (cachedHoursAnswer_contains (PARK_NAMES st.currentPark) today rest o c ho ho2 hc hc2).1,
    (cachedHoursAnswer_contains (PARK_NAMES st.currentPark) today rest o c ho ho2 hc hc2).2⟩

/-- Witness state for C5: Magic Kingdom selected with cached hours for today. -/
def c5State : ChatState :=
  { currentPark := .magicKingdom, messages := [], inputText := "", isLoading := false,
    allAttractions := [], allEntertainment := [],
    allParkHours := [⟨.magicKingdom, some [⟨some "2026-10-11", some "09:00", some "22:00"⟩]⟩],
    allCharacterMeets := [], conversationContext := [], feedbackLog := [] }

set_option maxRecDepth 8000 in
/-- Witness for C5 at the input "what time does the park open". -/
theorem c5_witness :
    (∃ resp, (tryPatternMatch c5State "what time does the park open" none).1 = some resp ∧
      jsIncludes resp (formatTime "09:00") = true ∧ jsIncludes resp (formatTime "22:00") = true) ∧
    formatTime "09:00" = "9:00 AM" :=
  c5_amended_hours_times c5State "what time does the park open"
    ⟨.magicKingdom, some [⟨some "2026-10-11", some "09:00", some "22:00"⟩]⟩
    ⟨some "2026-10-11", some "09:00", some "22:00"⟩ [] "09:00" "22:00"
    (by decide) (by decide) (by decide) (by decide) (by decide) (by decide)
    (by decide) (by decide) (by decide) (by decide) (by decide)

end PixiePal
